import Mathlib

/-!
Shallow embedding of `src/cnn_graph/usage.ipynb`.

The notebook is a linear script over an external library
(`graph`, `coarsening`, `models`, `utils`).  The library functions are
opaque here: they are fields of a `Lib` record, and `runScript` replays
the notebook's statements over any such record, together with a trace of
the statement-level events.  The parts of the notebook that are concrete
arithmetic (the constants, the train/val/test slicing, the label
thresholding, and the class-count assertion) are embedded directly.
Real numbers produced by opaque floating-point library calls (the mean
and standard deviation of the target `t`) are taken as rational inputs.
-/

/-- `d = 100`: dimensionality (number of features). -/
def d : Nat := 100

/-- `n = 10000`: number of samples. -/
def n : Nat := 10000

/-- `n_train = n // 2`: size of the training split. -/
def n_train : Nat := n / 2

/-- `n_val = n // 10`: size of the validation split. -/
def n_val : Nat := n / 10

/-- `X_train = X[:n_train]`. -/
def splitTrain {α : Type} (X : List α) : List α := X.take n_train

/-- `X_val = X[n_train:n_train+n_val]`. -/
def splitVal {α : Type} (X : List α) : List α := (X.drop n_train).take n_val

/-- `X_test = X[n_train+n_val:]`. -/
def splitTest {α : Type} (X : List α) : List α := X.drop (n_train + n_val)

/-- The label construction for one sample, given the (opaque, here
rational) mean `m` and standard deviation `s` of the target vector:
`y = 1` everywhere, then `y[t > mean + 0.4*std] = 0`, then
`y[t < mean - 0.4*std] = 2`, each masked assignment overwriting the
previous value. -/
def label (t m s : ℚ) : ℕ :=
  let y0 : ℕ := 1
  let y1 : ℕ := if m + 2/5 * s < t then 0 else y0
  let y2 : ℕ := if t < m - 2/5 * s then 2 else y1
  y2

/-- The full label vector `y` built from the target vector `t`. -/
def scriptY (t : List ℚ) (m s : ℚ) : List ℕ := t.map (fun ti => label ti m s)

/-- `y.max()` for a nonempty list of natural-number labels. -/
def maxL (y : List ℕ) : ℕ := y.foldr max 0

/-- `np.unique(y).size`: the number of distinct values in `y`. -/
def uniqueSize (y : List ℕ) : ℕ := y.dedup.length

/-- The hyper-parameter dictionary `params` built in the notebook. -/
structure Params where
  dir_name : String
  num_epochs : ℕ
  batch_size : ℕ
  eval_frequency : ℕ
  filter : String
  brelu : String
  pool : String
  F : List ℕ
  K : List ℕ
  p : List ℕ
  M : List ℕ
  regularization : ℚ
  dropout : ℚ
  learning_rate : ℚ
  decay_rate : ℚ
  momentum : ℚ
  decay_steps : ℚ
deriving DecidableEq

/-- The concrete `params` dictionary of the notebook, as a function of
the number of classes `C` (the only entry not a literal). -/
def scriptParams (C : ℕ) : Params where
  dir_name := "demo"
  num_epochs := 40
  batch_size := 100
  eval_frequency := 200
  filter := "chebyshev5"
  brelu := "b1relu"
  pool := "apool1"
  F := [32, 64]
  K := [20, 20]
  p := [4, 2]
  M := [512, C]
  regularization := 5 / 10000
  dropout := 1
  learning_rate := 1 / 1000
  decay_rate := 95 / 100
  momentum := 9 / 10
  decay_steps := (n_train : ℚ) / 100

/-- The object returned by `models.cgcnn(L, **params)`: it exposes
`.fit(X_train, y_train, X_val, y_val)` returning `(accuracy, loss,
t_step)`, and `.evaluate(X_test, y_test)`. -/
structure Model (Row Acc Loss Time EvalRes : Type) where
  fit : List Row → List ℕ → List Row → List ℕ → Acc × Loss × Time
  evaluate : List Row → List ℕ → EvalRes

/-- The external library surface the notebook calls into.  Every field
is opaque to the script; `utils` is imported by the notebook but never
used, so it is an arbitrary value of an arbitrary type. -/
structure Lib (Row TMat Dist Idx SMat Perm Lap Acc Loss Time EvalRes Utils : Type) where
  transpose : List Row → TMat
  distance_scipy_spatial : TMat → ℕ → String → Dist × Idx
  adjacency : Dist → Idx → SMat
  astype_float32 : SMat → SMat
  shape : SMat → ℕ × ℕ
  coarsen : SMat → ℕ → Bool → List SMat × Perm
  perm_data : List Row → Perm → List Row
  laplacian : SMat → Bool → Lap
  cgcnn : List Lap → Params → Model Row Acc Loss Time EvalRes
  utils : Utils

/-- Statement-level events of the notebook, in the order the cells run. -/
inductive Event where
  | dataGen
  | splitStep
  | distCall
  | adjacencyCall
  | shapeAssertPass
  | shapeAssertFail
  | coarsenCall
  | permDataTrain
  | permDataVal
  | permDataTest
  | laplacianMap
  | plotSpectrum
  | paramsSetup
  | classAssertPass
  | classAssertFail
  | cgcnnCall
  | fitCall
  | plotResults
  | printTime
  | evaluateCall
deriving DecidableEq, Repr

/-- Everything the completed script has bound when it finishes. -/
structure RunResult (Row SMat Perm Lap Acc Loss Time EvalRes : Type) where
  A : SMat
  graphs : List SMat
  perm : Perm
  X_train : List Row
  X_val : List Row
  X_test : List Row
  L : List Lap
  C : ℕ
  params : Params
  accuracy : Acc
  loss : Loss
  t_step : Time
  res : EvalRes

/-- Trace of a run in which both assertions pass. -/
def passTrace : List Event :=
  [.dataGen, .splitStep, .distCall, .adjacencyCall, .shapeAssertPass,
   .coarsenCall, .permDataTrain, .permDataVal, .permDataTest,
   .laplacianMap, .plotSpectrum, .paramsSetup, .classAssertPass,
   .cgcnnCall, .fitCall, .plotResults, .printTime, .evaluateCall]

/-- Trace of a run aborted by `assert C == np.unique(y).size`. -/
def classFailTrace : List Event :=
  [.dataGen, .splitStep, .distCall, .adjacencyCall, .shapeAssertPass,
   .coarsenCall, .permDataTrain, .permDataVal, .permDataTest,
   .laplacianMap, .plotSpectrum, .paramsSetup, .classAssertFail]

/-- Trace of a run aborted by `assert A.shape == (d, d)`. -/
def shapeFailTrace : List Event :=
  [.dataGen, .splitStep, .distCall, .adjacencyCall, .shapeAssertFail]

/-- The `(dist, idx)` pair the notebook computes:
`graph.distance_scipy_spatial(X_train.T, k=10, metric='euclidean')`. -/
def scriptDistIdx {Row TMat Dist Idx SMat Perm Lap Acc Loss Time EvalRes Utils : Type}
    (lib : Lib Row TMat Dist Idx SMat Perm Lap Acc Loss Time EvalRes Utils)
    (X : List Row) : Dist × Idx :=
  lib.distance_scipy_spatial (lib.transpose (splitTrain X)) 10 "euclidean"

/-- The adjacency matrix the notebook builds:
`A = graph.adjacency(dist, idx).astype(np.float32)`. -/
def scriptA {Row TMat Dist Idx SMat Perm Lap Acc Loss Time EvalRes Utils : Type}
    (lib : Lib Row TMat Dist Idx SMat Perm Lap Acc Loss Time EvalRes Utils)
    (X : List Row) : SMat :=
  lib.astype_float32 (lib.adjacency (scriptDistIdx lib X).1 (scriptDistIdx lib X).2)

/-- The notebook replayed end to end over an arbitrary library `lib`,
data matrix `X` (as the list of its rows), target vector `t`, and the
opaque mean `m` and standard deviation `s` of `t`.  Returns the final
bindings (if both assertions pass) and the statement-level trace. -/
def runScript {Row TMat Dist Idx SMat Perm Lap Acc Loss Time EvalRes Utils : Type}
    (lib : Lib Row TMat Dist Idx SMat Perm Lap Acc Loss Time EvalRes Utils)
    (X : List Row) (t : List ℚ) (m s : ℚ) :
    Option (RunResult Row SMat Perm Lap Acc Loss Time EvalRes) × List Event :=
  let y := scriptY t m s
  let X_train := splitTrain X
  let X_val := splitVal X
  let X_test := splitTest X
  let y_train := splitTrain y
  let y_val := splitVal y
  let y_test := splitTest y
  let di := lib.distance_scipy_spatial (lib.transpose X_train) 10 "euclidean"
  let A := lib.astype_float32 (lib.adjacency di.1 di.2)
  if lib.shape A = (d, d) then
    let gp := lib.coarsen A 3 false
    let graphs := gp.1
    let perm := gp.2
    let X_train2 := lib.perm_data X_train perm
    let X_val2 := lib.perm_data X_val perm
    let X_test2 := lib.perm_data X_test perm
    let L := graphs.map (fun Ai => lib.laplacian Ai true)
    let C := maxL y + 1
    if C = uniqueSize y then
      let ps := scriptParams C
      let model := lib.cgcnn L ps
      let fr := model.fit X_train2 y_train X_val2 y_val
      let res := model.evaluate X_test2 y_test
      (some ⟨A, graphs, perm, X_train2, X_val2, X_test2, L, C, ps,
             fr.1, fr.2.1, fr.2.2, res⟩, passTrace)
    else
      (none, classFailTrace)
  else
    (none, shapeFailTrace)

/-- The bindings `runScript` produces when both assertions pass, written
out explicitly: each field is the notebook expression that produces it. -/
def scriptResult {Row TMat Dist Idx SMat Perm Lap Acc Loss Time EvalRes Utils : Type}
    (lib : Lib Row TMat Dist Idx SMat Perm Lap Acc Loss Time EvalRes Utils)
    (X : List Row) (t : List ℚ) (m s : ℚ) :
    RunResult Row SMat Perm Lap Acc Loss Time EvalRes :=
  let y := scriptY t m s
  let A := scriptA lib X
  let gp := lib.coarsen A 3 false
  let X_train2 := lib.perm_data (splitTrain X) gp.2
  let X_val2 := lib.perm_data (splitVal X) gp.2
  let X_test2 := lib.perm_data (splitTest X) gp.2
  let L := gp.1.map (fun Ai => lib.laplacian Ai true)
  let C := maxL y + 1
  let ps := scriptParams C
  let model := lib.cgcnn L ps
  let fr := model.fit X_train2 (splitTrain y) X_val2 (splitVal y)
  ⟨A, gp.1, gp.2, X_train2, X_val2, X_test2, L, C, ps,
   fr.1, fr.2.1, fr.2.2, model.evaluate X_test2 (splitTest y)⟩

/-- A concrete instantiation of the library surface, used to evaluate
the theorems below at concrete inputs: every opaque type is `Unit`
except the unused `utils` slot, which carries a natural number. -/
def unitLib (u : ℕ) : Lib Unit Unit Unit Unit Unit Unit Unit Unit Unit Unit Unit ℕ where
  transpose := fun _ => ()
  distance_scipy_spatial := fun _ _ _ => ((), ())
  adjacency := fun _ _ => ()
  astype_float32 := fun _ => ()
  shape := fun _ => (100, 100)
  coarsen := fun _ _ _ => ([(), ()], ())
  perm_data := fun _ _ => []
  laplacian := fun _ _ => ()
  cgcnn := fun _ _ => { fit := fun _ _ _ _ => ((), (), ()), evaluate := fun _ _ => () }
  utils := u

/-- A concrete target vector whose labels under `m = 0`, `s = 0` are
`[0, 1, 2]`, so the class-count assertion passes. -/
def tW : List ℚ := [1, 0, -1]

theorem mem_le_maxL {v : ℕ} {y : List ℕ} (hv : v ∈ y) : v ≤ maxL y := by
  induction y with
  | nil => cases hv
  | cons a l ih =>
    rcases List.mem_cons.1 hv with h | h
    · subst h; exact le_max_left _ _
    · exact le_trans (ih h) (le_max_right _ _)

theorem scriptY_tW : scriptY tW 0 0 = [0, 1, 2] := by
  simp [scriptY, tW, label]

/-- If both assertion conditions hold, the script runs to the end,
producing exactly the bindings of `scriptResult` and the full trace. -/
theorem runScript_asserts
    {Row TMat Dist Idx SMat Perm Lap Acc Loss Time EvalRes Utils : Type}
    (lib : Lib Row TMat Dist Idx SMat Perm Lap Acc Loss Time EvalRes Utils)
    (X : List Row) (t : List ℚ) (m s : ℚ)
    (h1 : lib.shape (scriptA lib X) = (d, d))
    (h2 : maxL (scriptY t m s) + 1 = uniqueSize (scriptY t m s)) :
    runScript lib X t m s = (some (scriptResult lib X t m s), passTrace) := by
  simp only [runScript, scriptResult, scriptA, scriptDistIdx] at h1 h2 ⊢
  rw [if_pos h1, if_pos h2]

theorem splitTrain_length {α : Type} (X : List α) (hX : X.length = 10000) :
    (splitTrain X).length = 5000 := by
  simp [splitTrain, n_train, n, List.length_take, hX]

theorem splitVal_length {α : Type} (X : List α) (hX : X.length = 10000) :
    (splitVal X).length = 1000 := by
  simp [splitVal, n_train, n_val, n, List.length_take, List.length_drop, hX]

theorem splitTest_length {α : Type} (X : List α) (hX : X.length = 10000) :
    (splitTest X).length = 4000 := by
  simp [splitTest, n_train, n_val, n, List.length_drop, hX]

theorem split_append {α : Type} (X : List α) :
    splitTrain X ++ splitVal X ++ splitTest X = X := by
  rw [List.append_assoc, splitTrain, splitVal, splitTest]
  rw [← List.drop_drop, List.take_append_drop, List.take_append_drop]

theorem splitTrain_getElem {α : Type} (X : List α) (i : ℕ) (h : i < 5000) :
    (splitTrain X)[i]? = X[i]? := by
  rw [splitTrain, List.getElem?_take]
  simp [n_train, n]
  omega

theorem splitVal_getElem {α : Type} (X : List α) (i : ℕ) (h : i < 1000) :
    (splitVal X)[i]? = X[5000 + i]? := by
  rw [splitVal, List.getElem?_take]
  rw [show n_val = 1000 from rfl]
  simp only [if_pos h]
  rw [List.getElem?_drop]
  norm_num [n_train, n]

theorem splitTest_getElem {α : Type} (X : List α) (i : ℕ) :
    (splitTest X)[i]? = X[6000 + i]? := by
  rw [splitTest, List.getElem?_drop]
  norm_num [n_train, n_val, n]

/-- A concrete data list of the script's sample count, for evaluating
the split theorems. -/
def XR : List ℕ := List.replicate 10000 0

/-- Claim C8: with `n = 10000`, `n_train = 5000` and `n_val = 1000`, the
splits are the contiguous, pairwise-disjoint row slices `[0, 5000)`,
`[5000, 6000)`, `[6000, 10000)` of `X`, whose concatenation in order is
`X`; `y` is sliced identically, so within each split index `i` the `X`
row and the `y` label come from the same original row. -/
theorem split_slices {α β : Type} (X : List α) (y : List β)
    (hX : X.length = 10000) (hy : y.length = 10000) :
    n = 10000 ∧ n_train = 5000 ∧ n_val = 1000 ∧
    (splitTrain X).length = 5000 ∧ (splitVal X).length = 1000 ∧
    (splitTest X).length = 4000 ∧
    (splitTrain y).length = 5000 ∧ (splitVal y).length = 1000 ∧
    (splitTest y).length = 4000 ∧
    splitTrain X ++ splitVal X ++ splitTest X = X ∧
    splitTrain y ++ splitVal y ++ splitTest y = y ∧
    (∀ i, i < 5000 → (splitTrain X)[i]? = X[i]? ∧ (splitTrain y)[i]? = y[i]?) ∧
    (∀ i, i < 1000 → (splitVal X)[i]? = X[5000 + i]? ∧ (splitVal y)[i]? = y[5000 + i]?) ∧
    (∀ i, (splitTest X)[i]? = X[6000 + i]? ∧ (splitTest y)[i]? = y[6000 + i]?) :=
  ⟨rfl, rfl, rfl,
   splitTrain_length X hX, splitVal_length X hX, splitTest_length X hX,
   splitTrain_length y hy, splitVal_length y hy, splitTest_length y hy,
   split_append X, split_append y,
   fun i hi => ⟨splitTrain_getElem X i hi, splitTrain_getElem y i hi⟩,
   fun i hi => ⟨splitVal_getElem X i hi, splitVal_getElem y i hi⟩,
   fun i => ⟨splitTest_getElem X i, splitTest_getElem y i⟩⟩

theorem split_slices_witness :
    splitTrain XR ++ splitVal XR ++ splitTest XR = XR :=
  (split_slices XR XR (by rw [XR, List.length_replicate]) (by rw [XR, List.length_replicate])).2.2.2.2.2.2.2.2.2.1

/-- Claim C9: after the label construction, a sample with target `t`
gets label `0` when `t > mean + 0.4*std`, label `2` when
`t < mean - 0.4*std`, and label `1` otherwise; since the standard
deviation is nonnegative the two strict conditions are mutually
exclusive, exactly one rule applies, and every label lies in
`{0, 1, 2}`. -/
theorem label_trichotomy (t m s : ℚ) (hs : 0 ≤ s) :
    (m + 2/5 * s < t → label t m s = 0) ∧
    (t < m - 2/5 * s → label t m s = 2) ∧
    (¬ m + 2/5 * s < t → ¬ t < m - 2/5 * s → label t m s = 1) ∧
    ¬ (m + 2/5 * s < t ∧ t < m - 2/5 * s) ∧
    (label t m s = 0 ∨ label t m s = 1 ∨ label t m s = 2) := by
  have hexcl : ¬ (m + 2/5 * s < t ∧ t < m - 2/5 * s) := by
    rintro ⟨ha, hb⟩
    nlinarith
  refine ⟨?_, ?_, ?_, hexcl, ?_⟩
  · intro ha
    have hb : ¬ t < m - 2/5 * s := fun hb => hexcl ⟨ha, hb⟩
    simp [label, if_pos ha, if_neg hb]
  · intro hb
    simp [label, if_pos hb]
  · intro ha hb
    simp [label, if_neg ha, if_neg hb]
  · by_cases ha : m + 2/5 * s < t <;> by_cases hb : t < m - 2/5 * s <;>
      simp [label, ha, hb]

theorem label_trichotomy_witness : label 1 0 0 = 0 :=
  (label_trichotomy 1 0 0 (le_refl 0)).1 (by simp)

theorem maxL_mem {y : List ℕ} (hy : y ≠ []) : maxL y ∈ y := by
  induction y with
  | nil => cases hy rfl
  | cons a l ih =>
    rcases eq_or_ne l [] with h | h
    · subst h
      simp [maxL]
    · rcases Nat.le_total a (maxL l) with hle | hle
      · have : maxL (a :: l) = maxL l := by
          simp [maxL] at hle ⊢
          omega
        rw [this]
        exact List.mem_cons_of_mem a (ih h)
      · have : maxL (a :: l) = a := by
          simp [maxL] at hle ⊢
          omega
        rw [this]
        exact List.mem_cons_self a l

/-- Claim C10: with `C = y.max() + 1`, the assertion
`C == np.unique(y).size` succeeds exactly when the distinct values of
`y` are `{0, 1, ..., y.max()}` with no gaps; in particular it fails
whenever class `0` is empty while class `2` is non-empty, so progress
past the assertion guarantees the labels form a contiguous range
starting at `0`. -/
theorem class_count_assert (y : List ℕ) (_hy : y ≠ []) :
    ((maxL y + 1 = uniqueSize y) ↔ (∀ v, v ∈ y ↔ v ≤ maxL y)) ∧
    (0 ∉ y → 2 ∈ y → maxL y + 1 ≠ uniqueSize y) := by
  have hcard : uniqueSize y = y.toFinset.card := (List.card_toFinset y).symm
  have hsub : y.toFinset ⊆ Finset.range (maxL y + 1) := by
    intro v hv
    exact Finset.mem_range.2 (Nat.lt_succ_of_le (mem_le_maxL (List.mem_toFinset.1 hv)))
  have hmain : (maxL y + 1 = uniqueSize y) ↔ (∀ v, v ∈ y ↔ v ≤ maxL y) := by
    constructor
    · intro h v
      have hcard2 : (Finset.range (maxL y + 1)).card ≤ y.toFinset.card := by
        rw [Finset.card_range, ← hcard, ← h]
      have heq : y.toFinset = Finset.range (maxL y + 1) :=
        Finset.eq_of_subset_of_card_le hsub hcard2
      constructor
      · exact mem_le_maxL
      · intro hv
        have : v ∈ Finset.range (maxL y + 1) := Finset.mem_range.2 (Nat.lt_succ_of_le hv)
        rw [← heq] at this
        exact List.mem_toFinset.1 this
    · intro h
      have heq : y.toFinset = Finset.range (maxL y + 1) := by
        ext v
        rw [List.mem_toFinset, Finset.mem_range, Nat.lt_succ_iff]
        exact h v
      rw [hcard, heq, Finset.card_range]
  refine ⟨hmain, ?_⟩
  intro h0 h2 heq
  have hall := hmain.1 heq
  exact h0 ((hall 0).2 (Nat.zero_le _))

theorem class_count_assert_witness : maxL [1, 2] + 1 ≠ uniqueSize [1, 2] :=
  (class_count_assert [1, 2] (by decide)).2 (by decide) (by decide)

/-- Claim C1: the script's only error handling is the two assertions
`assert A.shape == (d, d)` and `assert C == np.unique(y).size` (there is
no try/except in the embedded script, whose only abort points are these
two checks): the run completes exactly when both conditions hold, and a
run stopped by an assertion ends at that assertion with no bindings
produced. -/
theorem script_succeeds_iff_assertions
    {Row TMat Dist Idx SMat Perm Lap Acc Loss Time EvalRes Utils : Type}
    (lib : Lib Row TMat Dist Idx SMat Perm Lap Acc Loss Time EvalRes Utils)
    (X : List Row) (t : List ℚ) (m s : ℚ) :
    ((runScript lib X t m s).1.isSome ↔
      (lib.shape (scriptA lib X) = (d, d) ∧
       maxL (scriptY t m s) + 1 = uniqueSize (scriptY t m s))) ∧
    (¬ lib.shape (scriptA lib X) = (d, d) →
      runScript lib X t m s = (none, shapeFailTrace)) ∧
    (lib.shape (scriptA lib X) = (d, d) →
      ¬ maxL (scriptY t m s) + 1 = uniqueSize (scriptY t m s) →
      runScript lib X t m s = (none, classFailTrace)) := by
  have hfail1 : ¬ lib.shape (scriptA lib X) = (d, d) →
      runScript lib X t m s = (none, shapeFailTrace) := by
    intro h1
    simp only [runScript, scriptA, scriptDistIdx] at h1 ⊢
    rw [if_neg h1]
  have hfail2 : lib.shape (scriptA lib X) = (d, d) →
      ¬ maxL (scriptY t m s) + 1 = uniqueSize (scriptY t m s) →
      runScript lib X t m s = (none, classFailTrace) := by
    intro h1 h2
    simp only [runScript, scriptA, scriptDistIdx] at h1 ⊢
    rw [if_pos h1, if_neg h2]
  refine ⟨⟨?_, ?_⟩, hfail1, hfail2⟩
  · intro hsome
    by_cases h1 : lib.shape (scriptA lib X) = (d, d)
    · by_cases h2 : maxL (scriptY t m s) + 1 = uniqueSize (scriptY t m s)
      · exact ⟨h1, h2⟩
      · rw [hfail2 h1 h2] at hsome
        cases hsome
    · rw [hfail1 h1] at hsome
      cases hsome
  · rintro ⟨h1, h2⟩
    rw [runScript_asserts lib X t m s h1 h2]
    rfl

theorem script_succeeds_iff_assertions_witness :
    (runScript (unitLib 0) ([] : List Unit) tW 0 0).1.isSome :=
  (script_succeeds_iff_assertions (unitLib 0) ([] : List Unit) tW 0 0).1.2
    ⟨rfl, by rw [scriptY_tW]; decide⟩

/-- Claim C2: the pair `(dist, idx)` from
`graph.distance_scipy_spatial(X_train.T, k=10, metric='euclidean')` is
passed unchanged as the two arguments of `graph.adjacency`, whose
result, cast to float32, is the adjacency matrix `A` used downstream;
under the assertion, `A` has shape `(d, d)` with `d = 100`. -/
theorem adjacency_dataflow
    {Row TMat Dist Idx SMat Perm Lap Acc Loss Time EvalRes Utils : Type}
    (lib : Lib Row TMat Dist Idx SMat Perm Lap Acc Loss Time EvalRes Utils)
    (X : List Row) (t : List ℚ) (m s : ℚ)
    (h1 : lib.shape (scriptA lib X) = (d, d))
    (h2 : maxL (scriptY t m s) + 1 = uniqueSize (scriptY t m s)) :
    (runScript lib X t m s).1 = some (scriptResult lib X t m s) ∧
    (scriptResult lib X t m s).A = lib.astype_float32 (lib.adjacency
      (lib.distance_scipy_spatial (lib.transpose (splitTrain X)) 10 "euclidean").1
      (lib.distance_scipy_spatial (lib.transpose (splitTrain X)) 10 "euclidean").2) ∧
    lib.shape (scriptResult lib X t m s).A = (d, d) ∧ d = 100 ∧
    (scriptResult lib X t m s).graphs =
      (lib.coarsen (scriptResult lib X t m s).A 3 false).1 :=
  ⟨by rw [runScript_asserts lib X t m s h1 h2], rfl, h1, rfl, rfl⟩

theorem adjacency_dataflow_witness :
    (runScript (unitLib 0) ([] : List Unit) tW 0 0).1 =
      some (scriptResult (unitLib 0) ([] : List Unit) tW 0 0) ∧
    (scriptResult (unitLib 0) ([] : List Unit) tW 0 0).A =
      (unitLib 0).astype_float32 ((unitLib 0).adjacency
        ((unitLib 0).distance_scipy_spatial
          ((unitLib 0).transpose (splitTrain ([] : List Unit))) 10 "euclidean").1
        ((unitLib 0).distance_scipy_spatial
          ((unitLib 0).transpose (splitTrain ([] : List Unit))) 10 "euclidean").2) ∧
    (unitLib 0).shape (scriptResult (unitLib 0) ([] : List Unit) tW 0 0).A = (d, d) ∧
    d = 100 ∧
    (scriptResult (unitLib 0) ([] : List Unit) tW 0 0).graphs =
      ((unitLib 0).coarsen (scriptResult (unitLib 0) ([] : List Unit) tW 0 0).A 3 false).1 :=
  adjacency_dataflow (unitLib 0) ([] : List Unit) tW 0 0 rfl (by rw [scriptY_tW]; decide)

/-- Claim C3: `coarsening.coarsen(A, levels=3, self_connections=False)`
returns the pair `(graphs, perm)`, and that single `perm` is the second
argument of each of the three `coarsening.perm_data` calls, which rebind
`X_train`, `X_val` and `X_test` to their permuted versions. -/
theorem coarsen_perm_shared
    {Row TMat Dist Idx SMat Perm Lap Acc Loss Time EvalRes Utils : Type}
    (lib : Lib Row TMat Dist Idx SMat Perm Lap Acc Loss Time EvalRes Utils)
    (X : List Row) (t : List ℚ) (m s : ℚ)
    (h1 : lib.shape (scriptA lib X) = (d, d))
    (h2 : maxL (scriptY t m s) + 1 = uniqueSize (scriptY t m s)) :
    (runScript lib X t m s).1 = some (scriptResult lib X t m s) ∧
    (scriptResult lib X t m s).graphs = (lib.coarsen (scriptA lib X) 3 false).1 ∧
    (scriptResult lib X t m s).perm = (lib.coarsen (scriptA lib X) 3 false).2 ∧
    (scriptResult lib X t m s).X_train =
      lib.perm_data (splitTrain X) (scriptResult lib X t m s).perm ∧
    (scriptResult lib X t m s).X_val =
      lib.perm_data (splitVal X) (scriptResult lib X t m s).perm ∧
    (scriptResult lib X t m s).X_test =
      lib.perm_data (splitTest X) (scriptResult lib X t m s).perm :=
  ⟨by rw [runScript_asserts lib X t m s h1 h2], rfl, rfl, rfl, rfl, rfl⟩

theorem coarsen_perm_shared_witness :
    (runScript (unitLib 0) ([] : List Unit) tW 0 0).1 =
      some (scriptResult (unitLib 0) ([] : List Unit) tW 0 0) ∧
    (scriptResult (unitLib 0) ([] : List Unit) tW 0 0).graphs =
      ((unitLib 0).coarsen (scriptA (unitLib 0) ([] : List Unit)) 3 false).1 ∧
    (scriptResult (unitLib 0) ([] : List Unit) tW 0 0).perm =
      ((unitLib 0).coarsen (scriptA (unitLib 0) ([] : List Unit)) 3 false).2 ∧
    (scriptResult (unitLib 0) ([] : List Unit) tW 0 0).X_train =
      (unitLib 0).perm_data (splitTrain ([] : List Unit))
        (scriptResult (unitLib 0) ([] : List Unit) tW 0 0).perm ∧
    (scriptResult (unitLib 0) ([] : List Unit) tW 0 0).X_val =
      (unitLib 0).perm_data (splitVal ([] : List Unit))
        (scriptResult (unitLib 0) ([] : List Unit) tW 0 0).perm ∧
    (scriptResult (unitLib 0) ([] : List Unit) tW 0 0).X_test =
      (unitLib 0).perm_data (splitTest ([] : List Unit))
        (scriptResult (unitLib 0) ([] : List Unit) tW 0 0).perm :=
  coarsen_perm_shared (unitLib 0) ([] : List Unit) tW 0 0 rfl (by rw [scriptY_tW]; decide)

/-- Claim C4: the Laplacian list `L` is `graph.laplacian(A,
normalized=True)` applied to every adjacency matrix in `graphs`, in
order, so `len(L) = len(graphs)`, and `L` is the first argument of
`models.cgcnn`. -/
theorem laplacian_per_graph
    {Row TMat Dist Idx SMat Perm Lap Acc Loss Time EvalRes Utils : Type}
    (lib : Lib Row TMat Dist Idx SMat Perm Lap Acc Loss Time EvalRes Utils)
    (X : List Row) (t : List ℚ) (m s : ℚ)
    (h1 : lib.shape (scriptA lib X) = (d, d))
    (h2 : maxL (scriptY t m s) + 1 = uniqueSize (scriptY t m s)) :
    (runScript lib X t m s).1 = some (scriptResult lib X t m s) ∧
    (scriptResult lib X t m s).L =
      (scriptResult lib X t m s).graphs.map (fun Ai => lib.laplacian Ai true) ∧
    (scriptResult lib X t m s).L.length = (scriptResult lib X t m s).graphs.length ∧
    ((scriptResult lib X t m s).accuracy, (scriptResult lib X t m s).loss,
     (scriptResult lib X t m s).t_step) =
      (lib.cgcnn (scriptResult lib X t m s).L (scriptResult lib X t m s).params).fit
        (scriptResult lib X t m s).X_train (splitTrain (scriptY t m s))
        (scriptResult lib X t m s).X_val (splitVal (scriptY t m s)) :=
  ⟨by rw [runScript_asserts lib X t m s h1 h2], rfl, List.length_map _ _, rfl⟩

theorem laplacian_per_graph_witness :
    (runScript (unitLib 0) ([] : List Unit) tW 0 0).1 =
      some (scriptResult (unitLib 0) ([] : List Unit) tW 0 0) ∧
    (scriptResult (unitLib 0) ([] : List Unit) tW 0 0).L =
      (scriptResult (unitLib 0) ([] : List Unit) tW 0 0).graphs.map
        (fun Ai => (unitLib 0).laplacian Ai true) ∧
    (scriptResult (unitLib 0) ([] : List Unit) tW 0 0).L.length =
      (scriptResult (unitLib 0) ([] : List Unit) tW 0 0).graphs.length ∧
    ((scriptResult (unitLib 0) ([] : List Unit) tW 0 0).accuracy,
     (scriptResult (unitLib 0) ([] : List Unit) tW 0 0).loss,
     (scriptResult (unitLib 0) ([] : List Unit) tW 0 0).t_step) =
      ((unitLib 0).cgcnn (scriptResult (unitLib 0) ([] : List Unit) tW 0 0).L
        (scriptResult (unitLib 0) ([] : List Unit) tW 0 0).params).fit
        (scriptResult (unitLib 0) ([] : List Unit) tW 0 0).X_train (splitTrain (scriptY tW 0 0))
        (scriptResult (unitLib 0) ([] : List Unit) tW 0 0).X_val (splitVal (scriptY tW 0 0)) :=
  laplacian_per_graph (unitLib 0) ([] : List Unit) tW 0 0 rfl (by rw [scriptY_tW]; decide)

/-- Claim C5: the model from `models.cgcnn(L, **params)` has `.fit`
called exactly once, with `(X_train, y_train, X_val, y_val)` in that
order (the `X` arguments being the coarsening-permuted data), returning
`(accuracy, loss, t_step)`; `.evaluate` is called afterwards with
`(X_test, y_test)`. -/
theorem fit_once_then_evaluate
    {Row TMat Dist Idx SMat Perm Lap Acc Loss Time EvalRes Utils : Type}
    (lib : Lib Row TMat Dist Idx SMat Perm Lap Acc Loss Time EvalRes Utils)
    (X : List Row) (t : List ℚ) (m s : ℚ)
    (h1 : lib.shape (scriptA lib X) = (d, d))
    (h2 : maxL (scriptY t m s) + 1 = uniqueSize (scriptY t m s)) :
    (runScript lib X t m s).1 = some (scriptResult lib X t m s) ∧
    ((scriptResult lib X t m s).accuracy, (scriptResult lib X t m s).loss,
     (scriptResult lib X t m s).t_step) =
      (lib.cgcnn (scriptResult lib X t m s).L (scriptResult lib X t m s).params).fit
        ((scriptResult lib X t m s).X_train) (splitTrain (scriptY t m s))
        ((scriptResult lib X t m s).X_val) (splitVal (scriptY t m s)) ∧
    (scriptResult lib X t m s).res =
      (lib.cgcnn (scriptResult lib X t m s).L (scriptResult lib X t m s).params).evaluate
        ((scriptResult lib X t m s).X_test) (splitTest (scriptY t m s)) ∧
    (runScript lib X t m s).2.count Event.fitCall = 1 ∧
    (runScript lib X t m s).2.count Event.evaluateCall = 1 ∧
    (runScript lib X t m s).2.indexOf Event.fitCall <
      (runScript lib X t m s).2.indexOf Event.evaluateCall := by
  have h := runScript_asserts lib X t m s h1 h2
  refine ⟨by rw [h], rfl, rfl, ?_, ?_, ?_⟩ <;> rw [h]
  · exact (by decide : List.count Event.fitCall passTrace = 1)
  · exact (by decide : List.count Event.evaluateCall passTrace = 1)
  · exact (by decide :
      List.indexOf Event.fitCall passTrace < List.indexOf Event.evaluateCall passTrace)

theorem fit_once_then_evaluate_witness :
    (runScript (unitLib 0) ([] : List Unit) tW 0 0).2.count Event.fitCall = 1 ∧
    (runScript (unitLib 0) ([] : List Unit) tW 0 0).2.count Event.evaluateCall = 1 ∧
    (runScript (unitLib 0) ([] : List Unit) tW 0 0).2.indexOf Event.fitCall <
      (runScript (unitLib 0) ([] : List Unit) tW 0 0).2.indexOf Event.evaluateCall :=
  (fit_once_then_evaluate (unitLib 0) ([] : List Unit) tW 0 0 rfl
    (by rw [scriptY_tW]; decide)).2.2.2

/-- Claim C6: the script is one linear sequence with no branching or
repetition of steps: whenever it completes, its statement-level trace is
the one fixed list `passTrace`, independent of the library and the data,
and the steps data construction, `distance_scipy_spatial`, `coarsen`,
`laplacian`, model instantiation, `fit`, and result plotting occur in
that order within it. -/
theorem linear_trace
    {Row TMat Dist Idx SMat Perm Lap Acc Loss Time EvalRes Utils : Type}
    (lib : Lib Row TMat Dist Idx SMat Perm Lap Acc Loss Time EvalRes Utils)
    (X : List Row) (t : List ℚ) (m s : ℚ)
    (h1 : lib.shape (scriptA lib X) = (d, d))
    (h2 : maxL (scriptY t m s) + 1 = uniqueSize (scriptY t m s)) :
    (runScript lib X t m s).2 = passTrace ∧
    List.Sublist [Event.dataGen, Event.distCall, Event.coarsenCall, Event.laplacianMap,
      Event.cgcnnCall, Event.fitCall, Event.plotResults] passTrace := by
  refine ⟨by rw [runScript_asserts lib X t m s h1 h2], ?_⟩
  decide

theorem linear_trace_witness :
    (runScript (unitLib 0) ([] : List Unit) tW 0 0).2 = passTrace :=
  (linear_trace (unitLib 0) ([] : List Unit) tW 0 0 rfl (by rw [scriptY_tW]; decide)).1

/-- Claim C7: the notebook implements none of the graph construction,
coarsening, filtering, pooling, or training itself: the run is a
composition of the opaque library operations, so its outcome is
determined by the `graph`/`coarsening`/`models` entry points alone, and
is unchanged under any replacement of the unused `utils` import
(including one of a different type). -/
theorem run_determined_by_library
    {Row TMat Dist Idx SMat Perm Lap Acc Loss Time EvalRes Utils Utils2 : Type}
    (lib1 : Lib Row TMat Dist Idx SMat Perm Lap Acc Loss Time EvalRes Utils)
    (lib2 : Lib Row TMat Dist Idx SMat Perm Lap Acc Loss Time EvalRes Utils2)
    (X : List Row) (t : List ℚ) (m s : ℚ)
    (ht : lib1.transpose = lib2.transpose)
    (hdi : lib1.distance_scipy_spatial = lib2.distance_scipy_spatial)
    (ha : lib1.adjacency = lib2.adjacency)
    (hc : lib1.astype_float32 = lib2.astype_float32)
    (hsh : lib1.shape = lib2.shape)
    (hco : lib1.coarsen = lib2.coarsen)
    (hp : lib1.perm_data = lib2.perm_data)
    (hl : lib1.laplacian = lib2.laplacian)
    (hg : lib1.cgcnn = lib2.cgcnn) :
    runScript lib1 X t m s = runScript lib2 X t m s := by
  cases lib1
  cases lib2
  simp only at ht hdi ha hc hsh hco hp hl hg
  subst ht hdi ha hc hsh hco hp hl hg
  rfl

theorem run_determined_by_library_witness :
    runScript (unitLib 0) ([] : List Unit) tW 0 0 =
      runScript (unitLib 1) ([] : List Unit) tW 0 0 ∧
    (unitLib 0).utils ≠ (unitLib 1).utils :=
  ⟨run_determined_by_library (unitLib 0) (unitLib 1) ([] : List Unit) tW 0 0
      rfl rfl rfl rfl rfl rfl rfl rfl rfl,
   by decide⟩
